import Mathlib

/-!
Shallow embedding of the core of a WhatsApp companion agent, following
`src/ai_companion/modules/memory/long_term/vector_store.py` (the
Qdrant-backed `VectorStore`), `memory_manager.py` (`MemoryManager`),
`modules/image/text_to_image.py` (`TextToImage`), and the modality router.

External capabilities are modelled as oracle parameters: the deterministic
sentence-transformer encoder composed with cosine scoring becomes an
abstract `score` function on pairs of texts, and each fallible client call
is driven by an explicit outcome value, so that one run of a Lean function
corresponds to one concrete execution trace of the Python code.  Every
`try/except` of the source appears as a `match` on such an outcome.
-/

/-- Metadata dict attached to a memory record, `{"id": ..., "timestamp": ...}`;
either key may be absent. -/
structure Meta where
  id? : Option String
  timestamp? : Option String
deriving DecidableEq, Repr

/-- A point stored in the Qdrant collection: point id, payload text and
payload metadata (`payload = {"text": text, **metadata}`).  The stored
vector is `encode(text)`; it is recovered through the abstract `score`
function, so it is not carried separately. -/
structure QPoint where
  pointId : String
  text : String
  meta : Meta
deriving DecidableEq, Repr

/-- The `Memory` dataclass of `vector_store.py`. -/
structure Memory where
  text : String
  metadata : Meta
  score : Option ℚ
deriving DecidableEq, Repr

/-- `Memory.id`: `self.metadata.get("id")`. -/
def Memory.id (m : Memory) : Option String :=
  m.metadata.id?

/-- State of the Qdrant server: whether the `long_term_memory` collection
exists, and the points it holds. -/
structure IndexState where
  hasCollection : Bool
  points : List QPoint
deriving DecidableEq, Repr

/-- `VectorStore.SIMILARITY_THRESHOLD = 0.9`. -/
def SIMILARITY_THRESHOLD : ℚ := mkRat 9 10

/-- Outcome of one `client.get_collections()` call: success, a
`ResponseHandlingException` (retried with a sleep), or any other
exception (the probe returns `False` at once). -/
inductive ProbeOutcome
  | ok
  | respErr
  | otherErr
deriving DecidableEq, Repr

/-- What one run of the collection-existence probe did: its boolean result,
how many `get_collections` attempts it made, and the sleeps it performed
(in seconds, in order). -/
structure ProbeResult where
  result : Bool
  attempts : Nat
  sleeps : List Nat
deriving DecidableEq, Repr

/-- The retry loop of `VectorStore._collection_exists`, recursing over the
attempt numbers still to run (`for attempt in range(1, max_retries + 1)`).
On success it reports whether the collection list of the server contains
`COLLECTION_NAME`; on `ResponseHandlingException` it sleeps
`attempt * 2` and retries; on any other exception it returns `False`. -/
def collection_exists_go (has : Bool) (probe : Nat → ProbeOutcome) :
    List Nat → ProbeResult
  | [] => ⟨false, 0, []⟩
  | attempt :: rest =>
    match probe attempt with
    | .ok => ⟨has, 1, []⟩
    | .otherErr => ⟨false, 1, []⟩
    | .respErr =>
      let r := collection_exists_go has probe rest
      ⟨r.result, r.attempts + 1, attempt * 2 :: r.sleeps⟩

/-- `VectorStore._collection_exists`: `max_retries = 3`, attempts numbered
1, 2, 3; falls through to `False` when the loop exhausts. -/
def collection_exists (has : Bool) (probe : Nat → ProbeOutcome) : ProbeResult :=
  collection_exists_go has probe [1, 2, 3]

/-- Oracle for one `search_memories` call: the outcomes of its collection
probe, and whether `model.encode` / `client.search` raises (the body of its
`try`). -/
structure SearchOracle where
  probe : Nat → ProbeOutcome
  searchErr : Bool

/-- Descending-score order used to model the cosine top-k search of Qdrant. -/
def byScoreDesc (score : String → ℚ) (a b : QPoint) : Prop :=
  score b.text ≤ score a.text

instance (score : String → ℚ) : DecidableRel (byScoreDesc score) := fun a b =>
  inferInstanceAs (Decidable (score b.text ≤ score a.text))

/-- `VectorStore.search_memories`: empty when the collection is missing or
unreachable, empty when the search client raises, otherwise the top-k
points by descending similarity to the query, each wrapped as a `Memory`
(`text` from the payload, payload-minus-text as metadata, the score of the hit).
`score q t` abstracts the cosine similarity of `encode q` and `encode t`. -/
def search_memories (score : String → String → ℚ) (st : IndexState)
    (o : SearchOracle) (query : String) (k : Nat) : List Memory :=
  if !(collection_exists st.hasCollection o.probe).result then []
  else if o.searchErr then []
  else
    ((List.insertionSort (byScoreDesc (score query)) st.points).take k).map
      fun p => ⟨p.text, p.meta, some (score query p.text)⟩

/-- `VectorStore.find_similar_memory`: single nearest neighbour, kept only
when its score is present and meets `SIMILARITY_THRESHOLD`. -/
def find_similar_memory (score : String → String → ℚ) (st : IndexState)
    (o : SearchOracle) (text : String) : Option Memory :=
  match search_memories score st o text 1 with
  | r :: _ =>
    match r.score with
    | some s => if SIMILARITY_THRESHOLD ≤ s then some r else none
    | none => none
  | [] => none

/-- Observable side effects on the index and the LLM boundary. -/
inductive Effect
  | createdCollection
  | upsertWrite (pointId : String) (text : String)
  | analyzeCalled
deriving DecidableEq, Repr

/-- Whether an effect is a write of a point into the vector index. -/
def Effect.isWrite : Effect → Bool
  | .upsertWrite _ _ => true
  | _ => false

/-- Oracle for one `store_memory` call: its own collection probe, whether
`_create_collection` fails, the oracle of its internal
`find_similar_memory`, and whether `client.upsert` raises. -/
structure StoreOracle where
  probe : Nat → ProbeOutcome
  createErr : Bool
  findOracle : SearchOracle
  upsertErr : Bool

/-- Qdrant upsert semantics: replace the point carrying the same id,
otherwise add a new point. -/
def upsertPoint (pts : List QPoint) (p : QPoint) : List QPoint :=
  if pts.any (fun q => q.pointId == p.pointId) then
    pts.map fun q => if q.pointId == p.pointId then p else q
  else pts ++ [p]

/-- Body of `VectorStore.store_memory` after the collection is known to
exist: runs the internal dedup check, redirects `metadata["id"]` to the
id of the similar memory when that id is truthy, falls back to
`str(abs(hash(text)))` when no id is present, and upserts unless the
client raises (the exception is caught and only logged). -/
def store_memory_core (score : String → String → ℚ) (pyHash : String → Int)
    (st : IndexState) (o : StoreOracle) (text : String) (metadata : Meta) :
    IndexState × List Effect :=
  let similar := find_similar_memory score st o.findOracle text
  let metadata1 :=
    match similar with
    | some m =>
      match m.metadata.id? with
      | some i => if i = "" then metadata else { metadata with id? := some i }
      | none => metadata
    | none => metadata
  let pointId := metadata1.id?.getD (toString (pyHash text).natAbs)
  if o.upsertErr then (st, [])
  else ({ st with points := upsertPoint st.points ⟨pointId, text, metadata1⟩ },
        [Effect.upsertWrite pointId text])

/-- `VectorStore.store_memory`: when the probe says the collection is
missing it tries to create it, and on creation failure it returns without
storing ("Could not create collection; skipping memory storage."); then the
dedup-and-upsert body runs. -/
def store_memory (score : String → String → ℚ) (pyHash : String → Int)
    (st : IndexState) (o : StoreOracle) (text : String) (metadata : Meta) :
    IndexState × List Effect :=
  if (collection_exists st.hasCollection o.probe).result then
    store_memory_core score pyHash st o text metadata
  else if o.createErr then (st, [])
  else
    let r := store_memory_core score pyHash
      { st with hasCollection := true } o text metadata
    (r.1, Effect.createdCollection :: r.2)

/-- The `MemoryAnalysis` pydantic model of `memory_manager.py`. -/
structure MemoryAnalysis where
  is_important : Bool
  formatted_memory : Option String
deriving DecidableEq, Repr

/-- Outcome of the structured-output LLM call in
`MemoryManager._analyze_memory`: a `MemoryAnalysis`, a value of some other
type (`not isinstance(analysis, MemoryAnalysis)`), or an exception. -/
inductive LLMResult
  | ok (a : MemoryAnalysis)
  | wrongType
  | exn
deriving DecidableEq, Repr

/-- `MemoryManager._analyze_memory`: both the wrong-type branch and the
`except` branch collapse to `MemoryAnalysis(is_important=False,
formatted_memory=None)`. -/
def analyze_memory : LLMResult → MemoryAnalysis
  | .ok a => a
  | .wrongType => ⟨false, none⟩
  | .exn => ⟨false, none⟩

/-- The fields of a langchain `BaseMessage` the manager reads. -/
structure BaseMessage where
  type : String
  content : String
deriving DecidableEq, Repr

/-- Oracle for one `extract_and_store_memories` call: the LLM outcome, an
unexpected exception escaping the manager-level similarity check (caught at
line 98 of `memory_manager.py`), the oracle of that check, the fresh
`uuid.uuid4()` draw, the `datetime.now().isoformat()` timestamp, and the
oracle for the inner `store_memory` call. -/
structure MgrOracle where
  llm : LLMResult
  findRaises : Bool
  findOracle : SearchOracle
  freshId : String
  now : String
  store : StoreOracle

/-- Python truthiness of `Optional[str]`: `None` and `""` are falsy. -/
def truthyStr : Option String → Bool
  | some s => s != ""
  | none => false

/-- `MemoryManager.extract_and_store_memories`: skips non-human messages and
empty content; analyzes; when important with a truthy formatted memory it
runs the similarity check (any exception there is caught and treated as
`similar = None`); when a similar memory exists it skips storing; otherwise
it stores under a fresh uuid id.  Exceptions from `store_memory` are caught
(lines 107-123); in this model `store_memory` is total, its internal
failures being oracle outcomes. -/
def extract_and_store_memories (score : String → String → ℚ)
    (pyHash : String → Int) (st : IndexState) (o : MgrOracle)
    (message : BaseMessage) : IndexState × List Effect :=
  if message.type != "human" then (st, [])
  else if message.content == "" then (st, [])
  else
    let analysis := analyze_memory o.llm
    if analysis.is_important && truthyStr analysis.formatted_memory then
      let fm := analysis.formatted_memory.getD ""
      let similar :=
        if o.findRaises then none
        else find_similar_memory score st o.findOracle fm
      match similar with
      | some _ => (st, [Effect.analyzeCalled])
      | none =>
        let r := store_memory score pyHash st o.store fm ⟨some o.freshId, some o.now⟩
        (r.1, Effect.analyzeCalled :: r.2)
    else (st, [Effect.analyzeCalled])

/-- `MemoryManager.get_relevant_memories`: the vector-store search wrapped
in a `try` that returns `[]` on any retrieval error (`searchRaises` models
an exception escaping that call), then the `text` field of each hit in the
order the index returned them. -/
def get_relevant_memories (score : String → String → ℚ) (st : IndexState)
    (o : SearchOracle) (searchRaises : Bool) (topK : Nat) (context : String) :
    List String :=
  if searchRaises then []
  else (search_memories score st o context topK).map fun m => m.text

/-- The in-band marker the transport prepends when the user attaches an
image (see `whatsapp_response.py` and `app.py`). -/
def USER_IMAGE_MARKER : String := "[USER_SENT_IMAGE]"

/-- The in-band prefix of embedded vision-analysis text. -/
def IMAGE_ANALYSIS_MARKER : String := "[Image Analysis:"

/-- Substring test: some suffix of `s` starts with `pat`. -/
def containsSub (s pat : String) : Bool :=
  (List.range (s.data.length + 1)).any fun i => pat.data.isPrefixOf (s.data.drop i)

/-- The closed modality enumeration. -/
inductive Modality
  | conversation
  | image
  | audio
deriving DecidableEq, Repr

/-- Modelled from the spec: normalization of the output of the router classifier
(the router node of module `ai_companion.graph` is not present under
`src/`).  Spec section 4.1: the classifier "must return exactly one of the
three labels; any other output, or an empty/malformed output, is treated as
`conversation` (safe default)". -/
def classifyLabel (s : String) : Modality :=
  if s == "image" then .image
  else if s == "audio" then .audio
  else .conversation

/-- The most recent user turn of a chronologically ordered history. -/
def latestUserTurn (history : List BaseMessage) : Option BaseMessage :=
  (history.filter fun m => m.type == "human").getLast?

/-- Modelled from the spec: the modality router `classify` of the session
workflow (module `ai_companion.graph`, not present under `src/`).  Spec
section 4.1: "Deterministic override precedes the classifier call: if the
most recent user turn contains the user-sent-image marker or an embedded
image-analysis annotation, the result is forced to `conversation`
regardless of classifier output"; otherwise the classifier output is
normalized by `classifyLabel`.  The classifier is abstracted as the raw
label `classifierOut` it would return. -/
def classify (history : List BaseMessage) (classifierOut : String) : Modality :=
  match latestUserTurn history with
  | some m =>
    if containsSub m.content USER_IMAGE_MARKER
        || containsSub m.content IMAGE_ANALYSIS_MARKER then
      .conversation
    else classifyLabel classifierOut
  | none => classifyLabel classifierOut

/-- The `ScenarioPrompt` pydantic model of `text_to_image.py`. -/
structure ScenarioPrompt where
  narrative : String
  image_prompt : String
deriving DecidableEq, Repr

/-- The `EnhancedPrompt` pydantic model of `text_to_image.py`. -/
structure EnhancedPrompt where
  content : String
deriving DecidableEq, Repr

/-- Outcome of a structured-output LLM chain call: a value or an
exception. -/
inductive LLMCall (α : Type)
  | ok (a : α)
  | exn
deriving DecidableEq, Repr

/-- The hard-coded fallback scenario of `TextToImage.create_scenario`. -/
def FALLBACK_SCENARIO : ScenarioPrompt :=
  ⟨"I\x27m imagining a beautiful scene...",
   "beautiful landscape with mountains and sunset, digital art, high quality, detailed"⟩

/-- `TextToImage.create_scenario`: on any exception from the chain it
returns the hard-coded fallback scenario instead of raising. -/
def create_scenario (o : LLMCall ScenarioPrompt) : ScenarioPrompt :=
  match o with
  | .ok s => s
  | .exn => FALLBACK_SCENARIO

/-- `TextToImage.enhance_prompt`: on any exception it falls back to the
original prompt with basic suffixed enhancements instead of raising. -/
def enhance_prompt (o : LLMCall EnhancedPrompt) (prompt : String) : String :=
  match o with
  | .ok e => e.content
  | .exn => prompt ++ ", high quality, detailed, professional, 4k"

/-- Exceptions `TextToImage.generate_image` can raise. -/
inductive PyErr
  | valueError
  | textToImageError
deriving DecidableEq, Repr

/-- the Python test `not prompt.strip()`: the string is empty or all
whitespace. -/
def isBlank (s : String) : Bool :=
  s.data.all fun c => c.isWhitespace

/-- `TextToImage.generate_image`: raises `ValueError` on a blank prompt
(`if not prompt.strip()`); otherwise enhances the prompt and performs the
HTTP render call, re-raising any HTTP or other failure as
`TextToImageError`.  `http` maps the enhanced prompt to the bytes the
render service returns, or to an error. -/
def generate_image (enh : LLMCall EnhancedPrompt)
    (http : String → Except Unit (List Nat)) (prompt : String) :
    Except PyErr (List Nat) :=
  if isBlank prompt then .error .valueError
  else
    match http (enhance_prompt enh prompt) with
    | .ok bytes => .ok bytes
    | .error _ => .error .textToImageError

/-- What the image-generation step of a turn produced. -/
structure ImageTurnResult where
  narrative : String
  image_prompt : String
  image : Option (List Nat)
deriving DecidableEq, Repr

/-- Modelled from the spec: the generic fallback visual prompt the session
workflow substitutes on renderer failure (spec sections 4.2 and 6: "on
renderer failure the turn must still complete with a best-effort fallback
image prompt rather than aborting the whole turn"). -/
def GENERIC_FALLBACK_IMAGE_PROMPT : String :=
  "a cozy, warmly lit everyday scene, photorealistic style"

/-- Modelled from the spec: the image-generation step of the session workflow
(the image node of module `ai_companion.graph`, not present under `src/`).
Spec section 4.2: scenario synthesis, then prompt enhancement, then
rendering; on renderer failure the turn still completes, with the generic
fallback visual prompt substituted and the narrative kept. -/
def image_turn (scen : LLMCall ScenarioPrompt) (enh : LLMCall EnhancedPrompt)
    (http : String → Except Unit (List Nat)) : ImageTurnResult :=
  let scenario := create_scenario scen
  match generate_image enh http scenario.image_prompt with
  | .ok bytes => ⟨scenario.narrative, scenario.image_prompt, some bytes⟩
  | .error _ => ⟨scenario.narrative, GENERIC_FALLBACK_IMAGE_PROMPT, none⟩

/-! Concrete oracles and runs used by witnesses and counterexamples. -/

/-- A probe whose every attempt succeeds. -/
def okProbe : Nat → ProbeOutcome := fun _ => .ok

/-- A probe for which the server is unreachable on every attempt. -/
def allRespErr : Nat → ProbeOutcome := fun _ => .respErr

/-- A search call on a reachable server whose client does not raise. -/
def okSearchO : SearchOracle := ⟨okProbe, false⟩

/-- A search call whose search client raises. -/
def errSearchO : SearchOracle := ⟨okProbe, true⟩

/-- A store call on a reachable server where nothing raises. -/
def okStoreO : StoreOracle := ⟨okProbe, false, okSearchO, false⟩

/-- A store call where collection creation fails. -/
def failCreateStoreO : StoreOracle := ⟨okProbe, true, okSearchO, false⟩

/-- A degenerate embedding score: every pair of texts has cosine
similarity 1 (mutual near-duplicates). -/
def exScore : String → String → ℚ := fun _ _ => 1

/-- A concrete stand-in for the Python builtin `hash`. -/
def exHash : String → Int := fun _ => 42

/-- A render service that always fails. -/
def httpFailEx : String → Except Unit (List Nat) := fun _ => .error ()

/-- C1 run, first turn: the fact `"Loves Star Wars"` is extracted and
stored under the fresh id `"uuid-1"`. -/
def exC1run1 : IndexState :=
  (extract_and_store_memories exScore exHash ⟨true, []⟩
    ⟨.ok ⟨true, some "Loves Star Wars"⟩, false, okSearchO, "uuid-1", "t1", okStoreO⟩
    ⟨"human", "remember that I love Star Wars"⟩).1

/-- C1 run, second turn: the near-duplicate fact
`"Really loves Star Wars"` (similarity 1 ≥ 0.9) is offered to the memory
subsystem. -/
def exC1run2 : IndexState :=
  (extract_and_store_memories exScore exHash exC1run1
    ⟨.ok ⟨true, some "Really loves Star Wars"⟩, false, okSearchO, "uuid-2", "t2", okStoreO⟩
    ⟨"human", "I really do love Star Wars"⟩).1

/-- C10 run, starting state: one record under id `"old-id"`. -/
def exSt10 : IndexState :=
  ⟨true, [⟨"old-id", "Loves Star Wars", ⟨some "old-id", some "t0"⟩⟩]⟩

/-- C10 run: the manager-level similarity check raises (`findRaises`), the
LLM extracts a fact identical in meaning to the stored one, and the store
layer works normally. -/
def exRun10 : IndexState × List Effect :=
  extract_and_store_memories exScore exHash exSt10
    ⟨.ok ⟨true, some "Loves Star Wars"⟩, true, okSearchO, "fresh-id", "t1", okStoreO⟩
    ⟨"human", "i love star wars"⟩

/-- A score function with one dissimilar query text: any query other than
`"F2x"` has similarity 1 to everything, while `"F2x"` has similarity 0. -/
def scoreC1 : String → String → ℚ := fun q _ => if q = "F2x" then 0 else 1

/-- Two concrete records for retrieval runs. -/
def exStE : IndexState :=
  ⟨true, [⟨"a", "A", ⟨some "a", none⟩⟩, ⟨"b", "B", ⟨some "b", none⟩⟩]⟩

/-- A score function ranking text `"B"` above everything else. -/
def scoreW : String → String → ℚ := fun _ t => if t = "B" then 1 else 0

/-! Helper lemmas. -/

/-- Sanity: the threshold constant is the 0.9 of the spec. -/
theorem SIMILARITY_THRESHOLD_eq : SIMILARITY_THRESHOLD = 9 / 10 := by
  norm_num [SIMILARITY_THRESHOLD, Rat.mkRat_eq_div]

/-- When the collection does not exist on the server, the probe reports
`false` whatever the attempt outcomes are. -/
theorem collection_exists_go_false_result (probe : Nat → ProbeOutcome)
    (l : List Nat) : (collection_exists_go false probe l).result = false := by
  induction l with
  | nil => rfl
  | cons a rest ih =>
    unfold collection_exists_go
    cases h : probe a <;> simp [h, ih]
/-- C3: for every message whose type is not `"human"`, and for every human
message with empty content, `extract_and_store_memories` returns
immediately: the index state is unchanged and the effect trace is empty, so
the analysis classifier is never invoked and zero index writes occur (a
no-op, not an error). -/
theorem extract_skips_nonhuman_or_empty (score : String → String → ℚ)
    (pyHash : String → Int) (st : IndexState) (o : MgrOracle)
    (m : BaseMessage) (h : m.type ≠ "human" ∨ m.content = "") :
    extract_and_store_memories score pyHash st o m = (st, []) := by
  unfold extract_and_store_memories
  rcases h with h | h
  · simp [h]
  · by_cases ht : m.type = "human" <;> simp [ht, h]

/-- Witness for C3. -/
theorem extract_skips_nonhuman_or_empty_witness :
    extract_and_store_memories exScore exHash ⟨true, []⟩
      ⟨.ok ⟨true, some "Loves Star Wars"⟩, false, okSearchO, "u", "t", okStoreO⟩
      ⟨"ai", "hello"⟩ = (⟨true, []⟩, []) :=
  extract_skips_nonhuman_or_empty exScore exHash ⟨true, []⟩
    ⟨.ok ⟨true, some "Loves Star Wars"⟩, false, okSearchO, "u", "t", okStoreO⟩
    ⟨"ai", "hello"⟩ (Or.inl (by decide))

/-- C4: if the memory-analysis LLM call raises or returns a value that is
not a `MemoryAnalysis`, `_analyze_memory` yields
`{is_important := false, formatted_memory := none}`, and
`extract_and_store_memories` leaves the index untouched and performs no
writes.  The embedding is total over every oracle, which is the model of
"no exception from the memory subsystem escapes to the caller". -/
theorem memory_analysis_fails_open (score : String → String → ℚ)
    (pyHash : String → Int) (st : IndexState) (o : MgrOracle)
    (m : BaseMessage) (h : o.llm = .wrongType ∨ o.llm = .exn) :
    analyze_memory o.llm = ⟨false, none⟩ ∧
    (extract_and_store_memories score pyHash st o m).1 = st ∧
    (extract_and_store_memories score pyHash st o m).2.filter Effect.isWrite
      = [] := by
  have ha : analyze_memory o.llm = ⟨false, none⟩ := by
    rcases h with h | h <;> rw [h] <;> rfl
  refine ⟨ha, ?_, ?_⟩ <;>
  · simp only [extract_and_store_memories, ha, truthyStr]
    split
    · rfl
    · split <;> simp [Effect.isWrite]

/-- Witness for C4. -/
theorem memory_analysis_fails_open_witness :
    analyze_memory LLMResult.exn = ⟨false, none⟩ ∧
    (extract_and_store_memories exScore exHash ⟨true, []⟩
      ⟨.exn, false, okSearchO, "u", "t", okStoreO⟩ ⟨"human", "hi"⟩).1
      = ⟨true, []⟩ ∧
    (extract_and_store_memories exScore exHash ⟨true, []⟩
      ⟨.exn, false, okSearchO, "u", "t", okStoreO⟩
      ⟨"human", "hi"⟩).2.filter Effect.isWrite = [] :=
  memory_analysis_fails_open exScore exHash ⟨true, []⟩
    ⟨.exn, false, okSearchO, "u", "t", okStoreO⟩ ⟨"human", "hi"⟩
    (Or.inr rfl)

/-- C6: the collection-existence probe makes at most 3 attempts; when the
server is unreachable on every attempt it returns `false` rather than
raising, having slept 2 time units before the second attempt and 4 before
the third (the backoff doubles from 2; the final sleep follows the last
attempt and precedes no retry); and when the probe reports the collection
missing and creation then fails, `store_memory` returns with the state
unchanged and no effects, skipping storage without raising. -/
theorem probe_retry_bounded_store_skips
    (has : Bool) (probe probeAll : Nat → ProbeOutcome)
    (hAll : ∀ n, probeAll n = .respErr)
    (score : String → String → ℚ) (pyHash : String → Int)
    (st : IndexState) (o : StoreOracle) (text : String) (md : Meta)
    (hProbe : (collection_exists st.hasCollection o.probe).result = false)
    (hCreate : o.createErr = true) :
    (collection_exists has probe).attempts ≤ 3 ∧
    collection_exists has probeAll = ⟨false, 3, [2, 4, 6]⟩ ∧
    (collection_exists has probeAll).sleeps.take 2 = [2, 2 * 2] ∧
    store_memory score pyHash st o text md = (st, []) := by
  have hall : collection_exists has probeAll = ⟨false, 3, [2, 4, 6]⟩ := by
    simp [collection_exists, collection_exists_go, hAll]
  refine ⟨?_, hall, ?_, ?_⟩
  · cases h1 : probe 1 <;> cases h2 : probe 2 <;> cases h3 : probe 3 <;>
      simp [collection_exists, collection_exists_go, h1, h2, h3]
  · rw [hall]; rfl
  · unfold store_memory
    rw [hProbe, hCreate]
    simp

/-- Witness for C6. -/
theorem probe_retry_bounded_store_skips_witness :
    (collection_exists true okProbe).attempts ≤ 3 ∧
    collection_exists true allRespErr = ⟨false, 3, [2, 4, 6]⟩ ∧
    (collection_exists true allRespErr).sleeps.take 2 = [2, 2 * 2] ∧
    store_memory exScore exHash ⟨false, []⟩ failCreateStoreO "t" ⟨none, none⟩
      = (⟨false, []⟩, []) :=
  probe_retry_bounded_store_skips true okProbe allRespErr (fun _ => rfl)
    exScore exHash ⟨false, []⟩ failCreateStoreO "t" ⟨none, none⟩
    (by decide) rfl

/-- C2: for every message history whose most recent user turn contains the
`"[USER_SENT_IMAGE]"` marker or an embedded image-analysis annotation
(`"[Image Analysis:"`), the router returns `conversation` whatever the classifier
output is: the deterministic override precedes (and makes irrelevant) the
classifier call. -/
theorem router_image_override (history : List BaseMessage) (m : BaseMessage)
    (lbl lbl2 : String) (hm : latestUserTurn history = some m)
    (hmark : containsSub m.content USER_IMAGE_MARKER = true ∨
             containsSub m.content IMAGE_ANALYSIS_MARKER = true) :
    classify history lbl = .conversation ∧
    classify history lbl = classify history lbl2 := by
  have hc : ∀ l, classify history l = .conversation := by
    intro l
    unfold classify
    rw [hm]
    rcases hmark with h | h <;> simp [h]
  exact ⟨hc lbl, (hc lbl).trans (hc lbl2).symm⟩

/-- Witness for C2: end-to-end scenario B of the spec. -/
theorem router_image_override_witness :
    classify [⟨"human",
      "[USER_SENT_IMAGE] what is this? [Image Analysis: a laptop screen]"⟩]
      "image" = .conversation ∧
    classify [⟨"human",
      "[USER_SENT_IMAGE] what is this? [Image Analysis: a laptop screen]"⟩]
      "image"
    = classify [⟨"human",
      "[USER_SENT_IMAGE] what is this? [Image Analysis: a laptop screen]"⟩]
      "audio" :=
  router_image_override
    [⟨"human", "[USER_SENT_IMAGE] what is this? [Image Analysis: a laptop screen]"⟩]
    ⟨"human", "[USER_SENT_IMAGE] what is this? [Image Analysis: a laptop screen]"⟩
    "image" "audio" (by decide) (Or.inl (by decide))

/-- C7: on renderer failure the image turn still completes, with the
generic fallback visual prompt substituted and the scenario narrative
kept; `generate_image` itself re-raises renderer failure as
`TextToImageError`; `create_scenario` substitutes its hard-coded fallback
scenario on its own failure; `enhance_prompt` substitutes the original
prompt with basic suffixed enhancements on its own failure. -/
theorem image_turn_fallbacks (scen : LLMCall ScenarioPrompt)
    (enh enh2 : LLMCall EnhancedPrompt)
    (httpFail : String → Except Unit (List Nat))
    (hfail : ∀ s, httpFail s = .error ()) (p : String) (hp : isBlank p = false) :
    image_turn scen enh httpFail
      = ⟨(create_scenario scen).narrative, GENERIC_FALLBACK_IMAGE_PROMPT, none⟩ ∧
    generate_image enh2 httpFail p = .error .textToImageError ∧
    create_scenario .exn = FALLBACK_SCENARIO ∧
    ∀ q, enhance_prompt .exn q
      = q ++ ", high quality, detailed, professional, 4k" := by
  refine ⟨?_, ?_, rfl, fun q => rfl⟩
  · have herr : generate_image enh httpFail (create_scenario scen).image_prompt
        = .error .valueError ∨
        generate_image enh httpFail (create_scenario scen).image_prompt
        = .error .textToImageError := by
      unfold generate_image
      split
      · exact Or.inl rfl
      · rw [hfail]; exact Or.inr rfl
    simp only [image_turn]
    rcases herr with h | h <;> rw [h]
  · simp [generate_image, hp, hfail]

/-- Witness for C7: every capability fails and the turn still completes
with the fallback prompt. -/
theorem image_turn_fallbacks_witness :
    image_turn .exn .exn httpFailEx
      = ⟨(create_scenario .exn).narrative, GENERIC_FALLBACK_IMAGE_PROMPT, none⟩ ∧
    generate_image .exn httpFailEx "sunset over the sea"
      = .error .textToImageError ∧
    create_scenario .exn = FALLBACK_SCENARIO ∧
    ∀ q, enhance_prompt .exn q
      = q ++ ", high quality, detailed, professional, 4k" :=
  image_turn_fallbacks .exn .exn .exn httpFailEx (fun _ => rfl)
    "sunset over the sea" (by decide)

/-- C5: `get_relevant_memories` returns `[]`, never raising, when the
collection is missing (`stA`), when the index is unreachable on every
probe attempt (`oB`), when the search client raises (`oC`), and when an
unexpected retrieval error escapes into the manager-level handler (`oD`);
on success it returns exactly the `text` field of each of the top-k hits,
its length is `min k (number of records)`, and it is ordered by descending
similarity score.  Totality of the embedding over every oracle is the
model of "never raises". -/
theorem get_relevant_memories_spec (score : String → String → ℚ)
    (topK : Nat) (ctx : String)
    (stA : IndexState) (oA : SearchOracle) (hA : stA.hasCollection = false)
    (stB : IndexState) (oB : SearchOracle) (hB : ∀ n, oB.probe n = .respErr)
    (stC : IndexState) (oC : SearchOracle) (hC : oC.searchErr = true)
    (stD : IndexState) (oD : SearchOracle)
    (stE : IndexState) (oE : SearchOracle)
    (hE1 : (collection_exists stE.hasCollection oE.probe).result = true)
    (hE2 : oE.searchErr = false) :
    get_relevant_memories score stA oA false topK ctx = [] ∧
    get_relevant_memories score stB oB false topK ctx = [] ∧
    get_relevant_memories score stC oC false topK ctx = [] ∧
    get_relevant_memories score stD oD true topK ctx = [] ∧
    get_relevant_memories score stE oE false topK ctx
      = ((List.insertionSort (byScoreDesc (score ctx)) stE.points).take topK).map
          QPoint.text ∧
    (get_relevant_memories score stE oE false topK ctx).length
      = min topK stE.points.length ∧
    List.Pairwise (fun a b => score ctx b ≤ score ctx a)
      (get_relevant_memories score stE oE false topK ctx) := by
  have hEeq : get_relevant_memories score stE oE false topK ctx
      = ((List.insertionSort (byScoreDesc (score ctx)) stE.points).take topK).map
          QPoint.text := by
    simp only [get_relevant_memories, search_memories, hE1, hE2, Bool.not_true,
      Bool.false_eq_true, if_false, List.map_map]
    rfl
  have hsorted : List.Pairwise (byScoreDesc (score ctx))
      (List.insertionSort (byScoreDesc (score ctx)) stE.points) := by
    haveI : IsTotal QPoint (byScoreDesc (score ctx)) :=
      ⟨fun a b => le_total _ _⟩
    haveI : IsTrans QPoint (byScoreDesc (score ctx)) :=
      ⟨fun _ _ _ h1 h2 => le_trans h2 h1⟩
    exact List.sorted_insertionSort _ _
  refine ⟨?_, ?_, ?_, ?_, hEeq, ?_, ?_⟩
  · simp [get_relevant_memories, search_memories, collection_exists, hA,
      collection_exists_go_false_result]
  · simp [get_relevant_memories, search_memories,
      collection_exists, collection_exists_go, hB]
  · simp [get_relevant_memories, search_memories, hC]
  · rfl
  · rw [hEeq]
    simp [List.length_take, List.length_insertionSort]
  · rw [hEeq]
    exact List.pairwise_map.mpr (hsorted.sublist (List.take_sublist _ _))

/-- Witness for C5. -/
theorem get_relevant_memories_spec_witness :
    get_relevant_memories scoreW ⟨false, []⟩ okSearchO false 5 "q" = [] ∧
    get_relevant_memories scoreW ⟨true, []⟩ ⟨allRespErr, false⟩ false 5 "q" = [] ∧
    get_relevant_memories scoreW ⟨true, []⟩ errSearchO false 5 "q" = [] ∧
    get_relevant_memories scoreW ⟨true, []⟩ okSearchO true 5 "q" = [] ∧
    get_relevant_memories scoreW exStE okSearchO false 5 "q"
      = ((List.insertionSort (byScoreDesc (scoreW "q")) exStE.points).take 5).map
          QPoint.text ∧
    (get_relevant_memories scoreW exStE okSearchO false 5 "q").length
      = min 5 exStE.points.length ∧
    List.Pairwise (fun a b => scoreW "q" b ≤ scoreW "q" a)
      (get_relevant_memories scoreW exStE okSearchO false 5 "q") :=
  get_relevant_memories_spec scoreW 5 "q"
    ⟨false, []⟩ okSearchO rfl
    ⟨true, []⟩ ⟨allRespErr, false⟩ (fun _ => rfl)
    ⟨true, []⟩ errSearchO rfl
    ⟨true, []⟩ okSearchO
    exStE okSearchO (by decide) rfl

/-- C8: upserting the same `{id, text}` pair twice through `store_memory`
is idempotent: the second call reproduces the state of the first, exactly
one retrievable record carries that id, and the underlying upsert is
idempotent keyed by id on every point list — a repeated write updates the
existing point rather than creating a second one. -/
theorem store_memory_idempotent (score : String → String → ℚ)
    (pyHash : String → Int) (i t ts : String) :
    (store_memory score pyHash
        (store_memory score pyHash ⟨true, []⟩ okStoreO t ⟨some i, some ts⟩).1
        okStoreO t ⟨some i, some ts⟩).1
      = (store_memory score pyHash ⟨true, []⟩ okStoreO t ⟨some i, some ts⟩).1 ∧
    ((store_memory score pyHash ⟨true, []⟩ okStoreO t ⟨some i, some ts⟩).1.points.filter
        fun p => p.pointId == i).length = 1 ∧
    ∀ (pts : List QPoint) (p : QPoint),
      upsertPoint (upsertPoint pts p) p = upsertPoint pts p := by
  have h1 : (store_memory score pyHash ⟨true, []⟩ okStoreO t ⟨some i, some ts⟩).1
      = ⟨true, [⟨i, t, ⟨some i, some ts⟩⟩]⟩ := by
    simp [store_memory, store_memory_core, find_similar_memory, search_memories,
      collection_exists, collection_exists_go, okStoreO, okSearchO, okProbe,
      upsertPoint, List.insertionSort]
  refine ⟨?_, ?_, ?_⟩
  · rw [h1]
    by_cases hs : SIMILARITY_THRESHOLD ≤ score t t <;>
      by_cases hi : i = "" <;>
      simp [store_memory, store_memory_core, find_similar_memory, search_memories,
        collection_exists, collection_exists_go, okStoreO, okSearchO, okProbe,
        upsertPoint, List.insertionSort, List.orderedInsert, hs, hi]
  · rw [h1]
    simp
  · intro pts p
    unfold upsertPoint
    by_cases h : pts.any (fun q => q.pointId == p.pointId) = true
    · rw [if_pos h]
      have h2 : (List.map (fun q => if q.pointId == p.pointId then p else q) pts).any
          (fun q => q.pointId == p.pointId) = true := by
        rcases List.any_eq_true.mp h with ⟨q, hq, hqid⟩
        exact List.any_eq_true.mpr
          ⟨p, List.mem_map.mpr ⟨q, hq, by rw [if_pos hqid]⟩, by simp⟩
      rw [if_pos h2, List.map_map]
      apply List.map_congr_left
      intro q _
      by_cases hq : (q.pointId == p.pointId) = true
      · simp [Function.comp, hq]
      · simp [Function.comp, hq]
    · rw [if_neg h]
      have h2 : ((pts ++ [p]).any fun q => q.pointId == p.pointId) = true := by
        simp
      rw [if_pos h2]
      have h3 : List.map (fun q => if q.pointId == p.pointId then p else q) pts
          = pts := by
        conv_rhs => rw [← List.map_id pts]
        apply List.map_congr_left
        intro q hq
        have hfalse : (q.pointId == p.pointId) = false := by
          by_contra hcon
          simp only [Bool.not_eq_false] at hcon
          exact h (List.any_eq_true.mpr ⟨q, hq, hcon⟩)
        simp [hfalse]
      rw [List.map_append, h3]
      simp

/-- C9: a record stored via the memory manager with no confirmed
near-duplicate gets the freshly drawn manager uuid as its id, both as
point id and in the payload metadata; and `store_memory`, when the supplied
metadata lacks an `"id"` key and no near-duplicate is found, falls back to
`str(abs(hash(text)))` as the point id. -/
theorem fresh_and_fallback_id_assignment (score : String → String → ℚ)
    (pyHash : String → Int) (c fm fid now t ts : String)
    (hc : c ≠ "") (hfm : fm ≠ "") :
    (extract_and_store_memories score pyHash ⟨true, []⟩
        ⟨.ok ⟨true, some fm⟩, false, okSearchO, fid, now, okStoreO⟩
        ⟨"human", c⟩).1.points
      = [⟨fid, fm, ⟨some fid, some now⟩⟩] ∧
    (store_memory score pyHash ⟨true, []⟩ okStoreO t ⟨none, some ts⟩).1.points
      = [⟨toString (pyHash t).natAbs, t, ⟨none, some ts⟩⟩] := by
  constructor
  · simp [extract_and_store_memories, analyze_memory, truthyStr, hc, hfm,
      find_similar_memory, search_memories, collection_exists,
      collection_exists_go, okSearchO, okStoreO, okProbe, store_memory,
      store_memory_core, upsertPoint, List.insertionSort]
  · simp [store_memory, store_memory_core, find_similar_memory, search_memories,
      collection_exists, collection_exists_go, okStoreO, okSearchO, okProbe,
      upsertPoint, List.insertionSort]

/-- Witness for C9. -/
theorem fresh_and_fallback_id_assignment_witness :
    (extract_and_store_memories exScore exHash ⟨true, []⟩
        ⟨.ok ⟨true, some "Studies at MIT"⟩, false, okSearchO, "uuid-9", "t9", okStoreO⟩
        ⟨"human", "can you remember I study at MIT"⟩).1.points
      = [⟨"uuid-9", "Studies at MIT", ⟨some "uuid-9", some "t9"⟩⟩] ∧
    (store_memory exScore exHash ⟨true, []⟩ okStoreO "Lives in Madrid"
        ⟨none, some "t10"⟩).1.points
      = [⟨toString (exHash "Lives in Madrid").natAbs, "Lives in Madrid",
          ⟨none, some "t10"⟩⟩] :=
  fresh_and_fallback_id_assignment exScore exHash
    "can you remember I study at MIT" "Studies at MIT" "uuid-9" "t9"
    "Lives in Madrid" "t10" (by decide) (by decide)

/-- C1 (amended): with similarity at or above the 0.9 threshold, storing F2
after F1 through the memory subsystem (`extract_and_store_memories`)
creates no second record, but it does so by skipping the store entirely:
the record of F1 keeps its id and its original text.  The id-reusing in-place
overwrite happens one layer down: a direct `store_memory` call on a
near-duplicate reuses the id of F1 and overwrites the payload text.  With
similarity below the threshold, storing F2 creates a second record with a
distinct (fresh) id. -/
theorem dedup_threshold_store_behavior (score : String → String → ℚ)
    (pyHash : String → Int)
    (F1 F2 F2x c1 c2 c3 id1 id2 id3 g t1 t2 t3 tg : String)
    (hF1 : F1 ≠ "") (hF2 : F2 ≠ "") (hF2x : F2x ≠ "")
    (hc1 : c1 ≠ "") (hc2 : c2 ≠ "") (hc3 : c3 ≠ "")
    (hhi : SIMILARITY_THRESHOLD ≤ score F2 F1)
    (hlo : ¬ SIMILARITY_THRESHOLD ≤ score F2x F1)
    (hid : id1 ≠ id3) (hid1 : id1 ≠ "") :
    (extract_and_store_memories score pyHash ⟨true, []⟩
        ⟨.ok ⟨true, some F1⟩, false, okSearchO, id1, t1, okStoreO⟩
        ⟨"human", c1⟩).1
      = ⟨true, [⟨id1, F1, ⟨some id1, some t1⟩⟩]⟩ ∧
    (extract_and_store_memories score pyHash
        ⟨true, [⟨id1, F1, ⟨some id1, some t1⟩⟩]⟩
        ⟨.ok ⟨true, some F2⟩, false, okSearchO, id2, t2, okStoreO⟩
        ⟨"human", c2⟩).1
      = ⟨true, [⟨id1, F1, ⟨some id1, some t1⟩⟩]⟩ ∧
    (extract_and_store_memories score pyHash
        ⟨true, [⟨id1, F1, ⟨some id1, some t1⟩⟩]⟩
        ⟨.ok ⟨true, some F2x⟩, false, okSearchO, id3, t3, okStoreO⟩
        ⟨"human", c3⟩).1
      = ⟨true, [⟨id1, F1, ⟨some id1, some t1⟩⟩,
                ⟨id3, F2x, ⟨some id3, some t3⟩⟩]⟩ ∧
    (store_memory score pyHash ⟨true, [⟨id1, F1, ⟨some id1, some t1⟩⟩]⟩
        okStoreO F2 ⟨some g, some tg⟩).1
      = ⟨true, [⟨id1, F2, ⟨some id1, some tg⟩⟩]⟩ := by
  refine ⟨?_, ?_, ?_, ?_⟩
  · simp [extract_and_store_memories, analyze_memory, truthyStr, hc1, hF1,
      find_similar_memory, search_memories, collection_exists,
      collection_exists_go, okSearchO, okStoreO, okProbe, store_memory,
      store_memory_core, upsertPoint, List.insertionSort]
  · simp [extract_and_store_memories, analyze_memory, truthyStr, hc2, hF2,
      find_similar_memory, search_memories, collection_exists,
      collection_exists_go, okSearchO, okStoreO, okProbe,
      List.insertionSort, List.orderedInsert, hhi]
  · simp [extract_and_store_memories, analyze_memory, truthyStr, hc3, hF2x,
      find_similar_memory, search_memories, collection_exists,
      collection_exists_go, okSearchO, okStoreO, okProbe, store_memory,
      store_memory_core, upsertPoint, List.insertionSort,
      List.orderedInsert, hlo, hid, Ne.symm hid]
  · simp [store_memory, store_memory_core, find_similar_memory,
      search_memories, collection_exists, collection_exists_go, okStoreO,
      okSearchO, okProbe, upsertPoint, List.insertionSort,
      List.orderedInsert, hhi, hid1]

/-- Witness for C1 (amended). -/
theorem dedup_threshold_store_behavior_witness :
    (extract_and_store_memories scoreC1 exHash ⟨true, []⟩
        ⟨.ok ⟨true, some "F1"⟩, false, okSearchO, "u1", "t1", okStoreO⟩
        ⟨"human", "c1"⟩).1
      = ⟨true, [⟨"u1", "F1", ⟨some "u1", some "t1"⟩⟩]⟩ ∧
    (extract_and_store_memories scoreC1 exHash
        ⟨true, [⟨"u1", "F1", ⟨some "u1", some "t1"⟩⟩]⟩
        ⟨.ok ⟨true, some "F2"⟩, false, okSearchO, "u2", "t2", okStoreO⟩
        ⟨"human", "c2"⟩).1
      = ⟨true, [⟨"u1", "F1", ⟨some "u1", some "t1"⟩⟩]⟩ ∧
    (extract_and_store_memories scoreC1 exHash
        ⟨true, [⟨"u1", "F1", ⟨some "u1", some "t1"⟩⟩]⟩
        ⟨.ok ⟨true, some "F2x"⟩, false, okSearchO, "u3", "t3", okStoreO⟩
        ⟨"human", "c3"⟩).1
      = ⟨true, [⟨"u1", "F1", ⟨some "u1", some "t1"⟩⟩,
                ⟨"u3", "F2x", ⟨some "u3", some "t3"⟩⟩]⟩ ∧
    (store_memory scoreC1 exHash ⟨true, [⟨"u1", "F1", ⟨some "u1", some "t1"⟩⟩]⟩
        okStoreO "F2" ⟨some "g", some "tg"⟩).1
      = ⟨true, [⟨"u1", "F2", ⟨some "u1", some "tg"⟩⟩]⟩ :=
  dedup_threshold_store_behavior scoreC1 exHash
    "F1" "F2" "F2x" "c1" "c2" "c3" "u1" "u2" "u3" "g" "t1" "t2" "t3" "tg"
    (by decide) (by decide) (by decide) (by decide) (by decide) (by decide)
    (by decide) (by decide) (by decide) (by decide)

/-- C1 counterexample: the claim part saying the later text overwrites the
payload in place is false for the memory subsystem.  With every pair of texts at
similarity 1 ≥ 0.9, storing the near-duplicate second fact through
`extract_and_store_memories` leaves the index exactly as it was: the only
payload text present is still the first fact, and the text of the second
fact was never written. -/
theorem dedup_no_overwrite_counterexample :
    SIMILARITY_THRESHOLD ≤ exScore "Really loves Star Wars" "Loves Star Wars" ∧
    exC1run2 = exC1run1 ∧
    exC1run2.points.map QPoint.text = ["Loves Star Wars"] ∧
    (exC1run2.points.all fun p => p.text != "Really loves Star Wars") = true := by
  decide

/-- C10 (amended): when the manager-level similarity check raises, the
exception is caught, the result is treated as no-similar-memory-found, and
the fact is handed to `store_memory` with the fresh manager id — never a
raise, never a skip.  (Whether it then lands as a new record depends on the internal dedup
check that `store_memory` itself runs.) -/
theorem dedup_check_failure_fails_open (score : String → String → ℚ)
    (pyHash : String → Int) (st : IndexState) (o : MgrOracle) (c fm : String)
    (hc : c ≠ "") (hfm : fm ≠ "")
    (hllm : o.llm = .ok ⟨true, some fm⟩) (hraise : o.findRaises = true) :
    extract_and_store_memories score pyHash st o ⟨"human", c⟩
      = ((store_memory score pyHash st o.store fm ⟨some o.freshId, some o.now⟩).1,
         Effect.analyzeCalled
           :: (store_memory score pyHash st o.store fm
                ⟨some o.freshId, some o.now⟩).2) := by
  simp [extract_and_store_memories, hllm, analyze_memory, truthyStr, hc, hfm,
    hraise]

/-- Witness for C10 (amended). -/
theorem dedup_check_failure_fails_open_witness :
    extract_and_store_memories exScore exHash exSt10
      ⟨.ok ⟨true, some "Loves Star Wars"⟩, true, okSearchO, "fresh-id", "t1",
        okStoreO⟩
      ⟨"human", "i love star wars"⟩
      = ((store_memory exScore exHash exSt10 okStoreO "Loves Star Wars"
            ⟨some "fresh-id", some "t1"⟩).1,
         Effect.analyzeCalled
           :: (store_memory exScore exHash exSt10 okStoreO "Loves Star Wars"
                ⟨some "fresh-id", some "t1"⟩).2) :=
  dedup_check_failure_fails_open exScore exHash exSt10
    ⟨.ok ⟨true, some "Loves Star Wars"⟩, true, okSearchO, "fresh-id", "t1",
      okStoreO⟩
    "i love star wars" "Loves Star Wars" (by decide) (by decide) rfl rfl

/-- C10 counterexample: "stored as a new record with a fresh id" is false.
In this run the similarity check raises, storage proceeds, but the dedup
check inside `store_memory` finds the near-duplicate and redirects
the write onto the existing record: the only id after the run is the old
one, the fresh id appears nowhere, and the single write effect targets
the old id. -/
theorem dedup_failure_counterexample :
    (extract_and_store_memories exScore exHash exSt10
        ⟨.ok ⟨true, some "Loves Star Wars"⟩, true, okSearchO, "fresh-id", "t1",
          okStoreO⟩
        ⟨"human", "i love star wars"⟩ = exRun10) ∧
    exRun10.1.points.map QPoint.pointId = ["old-id"] ∧
    (exRun10.1.points.all fun p => p.pointId != "fresh-id") = true ∧
    exRun10.2.filter Effect.isWrite
      = [Effect.upsertWrite "old-id" "Loves Star Wars"] := by
  decide
